import Mathlib

/-!
Shallow embedding of the axios auth-refresh interceptor (`src/index.ts`).

The interceptor installs a response-error handler on an axios instance.
Its mutable state is a pair `(isRefreshing, failedQueue)`; the handler
classifies each failure, either propagating it, enqueueing a pending entry
while a refresh is in flight, or starting a refresh.  The refresh procedure
(`performRefresh`) optionally short-circuits through a cross-tab validity
check, otherwise races the configured renewal call against a timeout, and
then drains the queue via `processQueue`.

JavaScript values are embedded as follows: `undefined`/`null` fields become
`Option`, JS truthiness of strings is modelled explicitly (`"" `is falsy),
callbacks and promise continuations become events in an ordered trace, and
the single-threaded event-loop execution between `await` points becomes
plain sequential evaluation.
-/

namespace AxiosAuthRefresh

/-- Credential pair returned by the renewal operation (`AuthTokens` in
`src/index.ts`): a required access token and an optional refresh token. -/
structure AuthTokens where
  accessToken : String
  refreshToken : Option String := none
deriving Repr, DecidableEq

/-- A request's mutable header map (`request.headers`), as an association
list of header name/value pairs. -/
abbrev Headers := List (String × String)

/-- Embeds `request.headers.set(k, v)`: replace any existing entry for `k` and
record the new value. -/
def headersSet (h : Headers) (k v : String) : Headers :=
  h.filter (fun p => p.1 ≠ k) ++ [(k, v)]

/-- Header lookup (used only in theorem statements). -/
def headersGet (h : Headers) (k : String) : Option String :=
  (h.find? (fun p => p.1 = k)).map (fun p => p.2)

/-- The request descriptor (`InternalAxiosRequestConfig` as the interceptor
sees it): the opt-out flag `skipAuthRefresh`, the private retry marker
`_retry` (field `retry` here), and the mutable headers. -/
structure RequestConfig where
  url : String := ""
  skipAuthRefresh : Bool := false
  retry : Bool := false
  headers : Headers := []
deriving Repr, DecidableEq

/-- The failure delivered to the response-error handler (`AxiosError`):
`responseStatus` is `error.response?.status` (`none` = no response was
received, e.g. a network error), `config` is `error.config` (`none` = no
descriptor attached). -/
structure AxiosError where
  responseStatus : Option Nat := none
  config : Option RequestConfig := none
deriving Repr, DecidableEq

/-- A failure value flowing through the refresh machinery: either the
original axios failure, a JS `Error` with a message (e.g. the synthesized
timeout error), or an opaque rejection value of the renewal promise. -/
inductive Err where
  | axios (e : AxiosError)
  | errorMsg (msg : String)
  | external (tag : Nat)
deriving Repr, DecidableEq

/-- Result of the configured `checkTokenIsValid` (`string | null | false`). -/
inductive CheckResult where
  | str (s : String)
  | nullv
  | falsev
deriving Repr, DecidableEq

/-- Result of the configured `getRefreshToken` (`string | null | undefined`). -/
inductive RTResult where
  | str (s : String)
  | nullv
  | undef
deriving Repr, DecidableEq

/-- Settlement of `Promise.race([config.requestRefresh(refreshToken),
timeoutPromise])`: the renewal resolved with tokens, the renewal rejected,
or the timer fired first. -/
inductive RaceResult where
  | resolved (tokens : AuthTokens)
  | rejected (e : Err)
  | timedOut
deriving Repr, DecidableEq

/-- The interceptor configuration (`AuthInterceptorConfig`), restricted to
a single refresh cycle: the effectful collaborators `checkTokenIsValid` and
`getRefreshToken` are embedded as "present, and this is the value the call
settles with this cycle" (`none` = option not configured).
`attachTokenToRequest` is the optional pure header-attachment override. -/
structure AuthInterceptorConfig where
  getRefreshToken : Option RTResult := none
  attachTokenToRequest : Option (RequestConfig → String → RequestConfig) := none
  refreshTimeout : Option Nat := none
  statusCodes : Option (List Nat) := none
  checkTokenIsValid : Option CheckResult := none

/-- Mirrors `const TIMEOUT_MS = config.refreshTimeout || 30000;` — JS `||` falls
back to `30000` when `refreshTimeout` is `undefined` *or* `0` (falsy). -/
def TIMEOUT_MS (config : AuthInterceptorConfig) : Nat :=
  match config.refreshTimeout with
  | none => 30000
  | some t => if t = 0 then 30000 else t

/-- Mirrors `const statusCodes = config.statusCodes || [401];` (an array, even an
empty one, is truthy in JS, so only absence falls back). -/
def statusCodes (config : AuthInterceptorConfig) : List Nat :=
  config.statusCodes.getD [401]

/-- One queued pending entry (`FailedRequest`): the request descriptor to
replay.  Its `resolve`/`reject` continuations are modelled by the
`Settlement` this entry receives when the queue is drained. -/
structure FailedRequest where
  config : RequestConfig
deriving Repr, DecidableEq

/-- How one queued entry is settled by a drain: its `reject` continuation
called with a failure, or its `resolve` continuation called with the replay
`axiosInstance(prom.config)` of the (possibly token-stamped) descriptor. -/
inductive Settlement where
  | rejectedWith (e : Err)
  | resolvedReplay (config : RequestConfig)
deriving Repr, DecidableEq

/-- The default attacher `defaultAttachToken`: sets `Authorization: Bearer <token>`. -/
def defaultAttachToken (request : RequestConfig) (token : String) : RequestConfig :=
  { request with headers := headersSet request.headers "Authorization" ("Bearer " ++ token) }

/-- One iteration of the `failedQueue.forEach` body in `processQueue`:
reject on an error, otherwise attach the token (custom attacher if
configured, else the default; skipped when the token is falsy, i.e. `null`
or `""`) and resolve with the replay. -/
def settleOne (config : AuthInterceptorConfig) (error : Option Err)
    (token : Option String) (prom : FailedRequest) : Settlement :=
  match error with
  | some e => Settlement.rejectedWith e
  | none =>
    match token with
    | some t =>
      if t = "" then Settlement.resolvedReplay prom.config
      else
        let attachToken := config.attachTokenToRequest.getD defaultAttachToken
        Settlement.resolvedReplay (attachToken prom.config t)
    | none => Settlement.resolvedReplay prom.config

/-- The `forEach` loop of `processQueue`, front to back (no settlement can
re-enter the queue synchronously: the replay's own response arrives on a
later event-loop turn). -/
def processQueueGo (config : AuthInterceptorConfig) (error : Option Err)
    (token : Option String) : List FailedRequest → List Settlement
  | [] => []
  | prom :: rest =>
    settleOne config error token prom :: processQueueGo config error token rest

/-- Embeds `processQueue(error, token)`: settle every queued entry in arrival
order, then `failedQueue = []`.  Returns the per-entry settlements in queue
order together with the new (empty) queue. -/
def processQueue (config : AuthInterceptorConfig) (error : Option Err)
    (token : Option String) (failedQueue : List FailedRequest) :
    List Settlement × List FailedRequest :=
  (processQueueGo config error token failedQueue, [])

theorem processQueueGo_eq_map (config : AuthInterceptorConfig) (error : Option Err)
    (token : Option String) (q : List FailedRequest) :
    processQueueGo config error token q = q.map (settleOne config error token) := by
  induction q with
  | nil => rfl
  | cons p rest ih => simp [processQueueGo, ih]

/-! ## The refresh procedure (`performRefresh`) -/

/-- JS truthiness + type test in
`if (validToken && typeof validToken === "string")`: only a *non-empty*
string passes (the empty string is falsy). -/
def usableToken : CheckResult → Option String
  | CheckResult.str s => if s = "" then none else some s
  | CheckResult.nullv => none
  | CheckResult.falsev => none

/-- The token, if any, with which the cross-tab check short-circuits this
cycle: `checkTokenIsValid` is configured and settles with a non-empty
string. -/
def shortCircuitToken (config : AuthInterceptorConfig) : Option String :=
  match config.checkTokenIsValid with
  | none => none
  | some r => usableToken r

/-- The argument passed to `config.requestRefresh`: the accessor's value if
one is configured, with `null` coerced to `undefined`
(`if (refreshToken === null) refreshToken = undefined`). -/
def refreshArg (config : AuthInterceptorConfig) : Option String :=
  match config.getRefreshToken with
  | none => none
  | some (RTResult.str s) => some s
  | some RTResult.nullv => none
  | some RTResult.undef => none

/-- Message of the synthesized timeout error:
`Refresh token timed out after ${TIMEOUT_MS}ms`. -/
def timeoutErrMsg (ms : Nat) : String :=
  "Refresh token timed out after " ++ toString ms ++ "ms"

/-- Observable events of one refresh cycle, in execution order. -/
inductive Event where
  /-- Event: `config.checkTokenIsValid()` was invoked. -/
  | checkTokenCalled
  /-- Event: `config.requestRefresh(arg)` was invoked (`none` = `undefined`). -/
  | requestRefreshCalled (arg : Option String)
  /-- Event: `config.onSuccess(tokens)` was invoked. -/
  | onSuccessCalled (tokens : AuthTokens)
  /-- Event: `config.onFailure(e)` was invoked. -/
  | onFailureCalled (e : Err)
  /-- the queue entry at position `idx` was settled by `processQueue`. -/
  | settled (idx : Nat) (s : Settlement)
  /-- Event: `isRefreshing = b` was assigned. -/
  | refreshingSet (b : Bool)
deriving Repr, DecidableEq

/-- The settlements of a drain as positioned events, `i` the position of
the first entry in the queue. -/
def settleEventsFrom (i : Nat) : List Settlement → List Event
  | [] => []
  | s :: rest => Event.settled i s :: settleEventsFrom (i + 1) rest

def settleEvents (settlements : List Settlement) : List Event :=
  settleEventsFrom 0 settlements

/-- The `checkTokenIsValid` invocation event, present exactly when the
option is configured. -/
def checkEvents (config : AuthInterceptorConfig) : List Event :=
  match config.checkTokenIsValid with
  | none => []
  | some _ => [Event.checkTokenCalled]

/-- One execution of `performRefresh` (the async closure in
`src/index.ts`): the ordered event trace, the queue after the run and the
final `isRefreshing` flag.  `race` is how
`Promise.race([config.requestRefresh(refreshToken), timeoutPromise])`
settles; it is only consulted when the cross-tab check does not
short-circuit.  In every branch the `finally` block resets the flag. -/
def performRefresh (config : AuthInterceptorConfig) (race : RaceResult)
    (failedQueue : List FailedRequest) : List Event × List FailedRequest × Bool :=
  match shortCircuitToken config with
  | some tok =>
    -- cross-tab hit: `processQueue(null, validToken); return;` — no
    -- renewal call, no success callback.
    (checkEvents config
       ++ settleEvents (processQueue config none (some tok) failedQueue).1
       ++ [Event.refreshingSet false],
     [], false)
  | none =>
    match race with
    | RaceResult.resolved tokens =>
      -- `config.onSuccess(newTokens); processQueue(null, newTokens.accessToken);`
      (checkEvents config
         ++ [Event.requestRefreshCalled (refreshArg config),
             Event.onSuccessCalled tokens]
         ++ settleEvents (processQueue config none (some tokens.accessToken) failedQueue).1
         ++ [Event.refreshingSet false],
       [], false)
    | RaceResult.rejected e =>
      -- `catch`: `processQueue(err, null); config.onFailure(err);`
      (checkEvents config
         ++ [Event.requestRefreshCalled (refreshArg config)]
         ++ settleEvents (processQueue config (some e) none failedQueue).1
         ++ [Event.onFailureCalled e, Event.refreshingSet false],
       [], false)
    | RaceResult.timedOut =>
      -- the timer rejects the race with the synthesized timeout error,
      -- which then flows through the same `catch`.
      let e := Err.errorMsg (timeoutErrMsg (TIMEOUT_MS config))
      (checkEvents config
         ++ [Event.requestRefreshCalled (refreshArg config)]
         ++ settleEvents (processQueue config (some e) none failedQueue).1
         ++ [Event.onFailureCalled e, Event.refreshingSet false],
       [], false)

/-! ## The response-error handler -/

/-- The classifier guard: `true` exactly when the failure proceeds into the
refresh flow.  Mirrors the two early `return Promise.reject(error)` checks:
`originalRequest?.skipAuthRefresh`, then
`!error.response || !statusCodes.includes(error.response.status) ||
!originalRequest || originalRequest.skipAuthRefresh || originalRequest._retry`. -/
def classifies (config : AuthInterceptorConfig) (error : AxiosError) : Bool :=
  match error.config with
  | none => false
  | some originalRequest =>
    !originalRequest.skipAuthRefresh
      && (match error.responseStatus with
          | none => false
          | some status => (statusCodes config).contains status)
      && !originalRequest.retry

/-- The interceptor's mutable state: the `isRefreshing` flag and the
`failedQueue`. -/
structure RefreshState where
  isRefreshing : Bool := false
  failedQueue : List FailedRequest := []
deriving Repr, DecidableEq

/-- What the handler returns to the caller whose request failed. -/
inductive HandlerResult where
  /-- Result: `return Promise.reject(error)` — the original failure, propagated
  unchanged. -/
  | propagate (error : AxiosError)
  /-- a pending promise whose entry joined the in-flight refresh's queue. -/
  | queuedJoin
  /-- a pending promise; this failure stamped the retry marker, set
  `isRefreshing`, enqueued its own entry and started the refresh. -/
  | startedRefresh
deriving Repr, DecidableEq

/-- One execution of the response-error interceptor, up to (and excluding)
the asynchronous completion of `performRefresh`: classify, then propagate,
join the queue, or start a refresh (mark `_retry`, set `isRefreshing`,
push the triggering request's own entry, launch `performRefresh`). -/
def onResponseError (config : AuthInterceptorConfig) (state : RefreshState)
    (error : AxiosError) : RefreshState × HandlerResult :=
  if classifies config error then
    match error.config with
    | none => (state, HandlerResult.propagate error)
    | some originalRequest =>
      if state.isRefreshing then
        ({ state with
            failedQueue := state.failedQueue ++ [⟨originalRequest⟩] },
         HandlerResult.queuedJoin)
      else
        ({ isRefreshing := true,
           failedQueue := state.failedQueue ++ [⟨{ originalRequest with retry := true }⟩] },
         HandlerResult.startedRefresh)
  else
    (state, HandlerResult.propagate error)

/-- A burst of failures delivered to the handler back to back, before the
in-flight refresh (if any) settles: fold `onResponseError` over the list,
collecting each caller's result. -/
def runHandler (config : AuthInterceptorConfig) (state : RefreshState) :
    List AxiosError → RefreshState × List HandlerResult
  | [] => (state, [])
  | e :: es =>
    let step := onResponseError config state e
    let rest := runHandler config step.1 es
    (rest.1, step.2 :: rest.2)

/-! ## Trace predicates and helper lemmas -/

/-- Is this event an invocation of the renewal operation? -/
def isRequestRefresh : Event → Bool
  | Event.requestRefreshCalled _ => true
  | _ => false

/-- Is this event an invocation of the success callback? -/
def isOnSuccess : Event → Bool
  | Event.onSuccessCalled _ => true
  | _ => false

/-- Is this event an invocation of the failure callback? -/
def isOnFailure : Event → Bool
  | Event.onFailureCalled _ => true
  | _ => false

/-- Is this event the settlement of a queue entry? -/
def isSettleEvent : Event → Bool
  | Event.settled _ _ => true
  | _ => false

/-- Did this handler invocation start a refresh? -/
def isStarted : HandlerResult → Bool
  | HandlerResult.startedRefresh => true
  | _ => false

theorem settleEventsFrom_shape (i : Nat) (ss : List Settlement) :
    ∀ ev ∈ settleEventsFrom i ss, ∃ j s, ev = Event.settled j s := by
  induction ss generalizing i with
  | nil => intro ev h; simp [settleEventsFrom] at h
  | cons s rest ih =>
    intro ev h
    simp only [settleEventsFrom, List.mem_cons] at h
    rcases h with h | h
    · exact ⟨i, s, h⟩
    · exact ih (i + 1) ev h

theorem settleEvents_countP_requestRefresh (ss : List Settlement) :
    (settleEvents ss).countP isRequestRefresh = 0 := by
  rw [List.countP_eq_zero]
  intro ev hev
  obtain ⟨j, s, rfl⟩ := settleEventsFrom_shape 0 ss ev hev
  simp [isRequestRefresh]

theorem settleEvents_no_onFailure (ss : List Settlement) :
    ∀ ev ∈ settleEvents ss, isOnFailure ev = false := by
  intro ev hev
  obtain ⟨j, s, rfl⟩ := settleEventsFrom_shape 0 ss ev hev
  simp [isOnFailure]

theorem checkEvents_countP_requestRefresh (config : AuthInterceptorConfig) :
    (checkEvents config).countP isRequestRefresh = 0 := by
  unfold checkEvents
  cases config.checkTokenIsValid <;> simp [isRequestRefresh]

/-- A classified failure always carries a descriptor that is not excluded,
not yet retried, and whose response status is in the trigger set. -/
theorem classifies_spec (config : AuthInterceptorConfig) (error : AxiosError)
    (h : classifies config error = true) :
    ∃ r, error.config = some r ∧ r.skipAuthRefresh = false ∧ r.retry = false ∧
      ∃ s, error.responseStatus = some s ∧ (statusCodes config).contains s = true := by
  unfold classifies at h
  cases hc : error.config with
  | none => rw [hc] at h; exact absurd h (by simp)
  | some r =>
    rw [hc] at h
    cases hs : error.responseStatus with
    | none => rw [hs] at h; simp at h
    | some s =>
      rw [hs] at h
      simp only [Bool.and_eq_true, Bool.not_eq_true'] at h
      exact ⟨r, rfl, h.1.1, h.2, s, rfl, h.1.2⟩

/-- While a refresh is in flight, a classified failure only joins the
queue: the flag is untouched and the new entry is appended. -/
theorem onResponseError_join (config : AuthInterceptorConfig) (st : RefreshState)
    (error : AxiosError) (r : RequestConfig)
    (hcls : classifies config error = true) (href : st.isRefreshing = true)
    (hcfg : error.config = some r) :
    onResponseError config st error
      = ({ st with failedQueue := st.failedQueue ++ [⟨r⟩] },
         HandlerResult.queuedJoin) := by
  unfold onResponseError
  rw [hcls, hcfg]
  simp [href]

/-- From the idle state, a classified failure starts the refresh: the
descriptor is stamped with the retry marker, the flag is set, and the
trigger's own entry is appended to the queue. -/
theorem onResponseError_start (config : AuthInterceptorConfig) (st : RefreshState)
    (error : AxiosError) (r : RequestConfig)
    (hcls : classifies config error = true) (href : st.isRefreshing = false)
    (hcfg : error.config = some r) :
    onResponseError config st error
      = ({ isRefreshing := true,
           failedQueue := st.failedQueue ++ [⟨{ r with retry := true }⟩] },
         HandlerResult.startedRefresh) := by
  unfold onResponseError
  rw [hcls, hcfg]
  simp [href]

/-- While the flag is up, a burst of classified failures starts no
refresh at all. -/
theorem runHandler_refreshing (config : AuthInterceptorConfig)
    (es : List AxiosError) :
    ∀ st : RefreshState, st.isRefreshing = true →
      (∀ e ∈ es, classifies config e = true) →
      (runHandler config st es).2.countP isStarted = 0 := by
  induction es with
  | nil => intro st _ _; simp [runHandler]
  | cons e rest ih =>
    intro st href hcls
    obtain ⟨r, hcfg, -⟩ := classifies_spec config e (hcls e (by simp))
    have hstep := onResponseError_join config st e r (hcls e (by simp)) href hcfg
    simp only [runHandler, hstep]
    rw [List.countP_cons]
    have : (runHandler config { st with failedQueue := st.failedQueue ++ [⟨r⟩] } rest).2.countP isStarted = 0 :=
      ih _ href (fun e' he' => hcls e' (by simp [he']))
    simp [this, isStarted]

theorem shortCircuitToken_of_checkNone (config : AuthInterceptorConfig)
    (h : config.checkTokenIsValid = none) : shortCircuitToken config = none := by
  unfold shortCircuitToken
  rw [h]

/-- A short-circuit token is never the empty string: the handler's
truthiness test rules it out. -/
theorem shortCircuitToken_ne_empty (config : AuthInterceptorConfig) (s : String)
    (h : shortCircuitToken config = some s) : s ≠ "" := by
  unfold shortCircuitToken at h
  cases hc : config.checkTokenIsValid with
  | none => rw [hc] at h; exact absurd h (by simp)
  | some r =>
    rw [hc] at h
    cases r with
    | str s' =>
      unfold usableToken at h
      by_cases hs : s' = "" <;> simp [hs] at h
      rw [← h]; exact hs
    | nullv => exact absurd h (by simp [usableToken])
    | falsev => exact absurd h (by simp [usableToken])

/-- In any refresh cycle the renewal operation is invoked at most once. -/
theorem performRefresh_countP_requestRefresh_le (config : AuthInterceptorConfig)
    (race : RaceResult) (q : List FailedRequest) :
    (performRefresh config race q).1.countP isRequestRefresh ≤ 1 := by
  unfold performRefresh
  cases hsc : shortCircuitToken config with
  | some tok =>
    simp only [List.countP_append, checkEvents_countP_requestRefresh,
      settleEvents_countP_requestRefresh]
    simp [isRequestRefresh, List.countP_cons, List.countP_nil]
  | none =>
    cases race <;>
      simp [List.countP_append, checkEvents_countP_requestRefresh,
        settleEvents_countP_requestRefresh, List.countP_cons, List.countP_nil,
        isRequestRefresh]

/-- When the cross-tab check does not short-circuit, each refresh cycle
invokes the renewal operation exactly once. -/
theorem performRefresh_countP_requestRefresh_eq (config : AuthInterceptorConfig)
    (race : RaceResult) (q : List FailedRequest)
    (h : shortCircuitToken config = none) :
    (performRefresh config race q).1.countP isRequestRefresh = 1 := by
  unfold performRefresh
  rw [h]
  cases race <;>
    simp [List.countP_append, checkEvents_countP_requestRefresh,
      settleEvents_countP_requestRefresh, List.countP_cons, List.countP_nil,
      isRequestRefresh]

theorem checkEvents_no_onFailure (config : AuthInterceptorConfig) :
    ∀ ev ∈ checkEvents config, isOnFailure ev = false := by
  unfold checkEvents
  cases config.checkTokenIsValid <;> simp [isOnFailure]

/-- When `shortCircuitToken` yields a token, `checkTokenIsValid` was
configured, so the check-invocation event is present. -/
theorem checkEvents_of_shortCircuit (config : AuthInterceptorConfig) (s : String)
    (h : shortCircuitToken config = some s) :
    checkEvents config = [Event.checkTokenCalled] := by
  unfold shortCircuitToken at h
  unfold checkEvents
  cases hc : config.checkTokenIsValid with
  | none => rw [hc] at h; exact absurd h (by simp)
  | some r => rfl

/-! ## Event-ordering predicates

Two executable orderings on a cycle's trace.  The first is the ordering the
specification asserts (failure callback before queue rejection); the second
is the reverse ordering (every settlement precedes every failure-callback
invocation). -/

/-- Scans the trace left to right; `pre` holds the events already seen.
Accepts iff every rejection-settlement with value `e` is preceded by
`onFailureCalled e`. -/
def failureCbBeforeRejectionsGo (pre : List Event) : List Event → Bool
  | [] => true
  | ev :: rest =>
    (match ev with
     | Event.settled _ (Settlement.rejectedWith e) =>
       pre.any (fun x => decide (x = Event.onFailureCalled e))
     | _ => true)
    && failureCbBeforeRejectionsGo (pre ++ [ev]) rest

/-- Formalization of claim C4's ordering: in this trace, the failure
callback is invoked with a failure value before any queue entry is rejected
with that value. -/
def failureCbBeforeRejections (tr : List Event) : Bool :=
  failureCbBeforeRejectionsGo [] tr

/-- Scans the trace left to right; `seen` records whether a
failure-callback invocation has occurred.  Accepts iff no queue entry is
settled after the failure callback has fired. -/
def noSettleAfterFailureCbGo : Bool → List Event → Bool
  | _, [] => true
  | _, Event.onFailureCalled _ :: rest => noSettleAfterFailureCbGo true rest
  | seen, Event.settled _ _ :: rest => !seen && noSettleAfterFailureCbGo seen rest
  | seen, _ :: rest => noSettleAfterFailureCbGo seen rest

/-- The ordering the code actually implements on the failure path: every
queue-entry settlement precedes every failure-callback invocation. -/
def rejectionsBeforeFailureCb (tr : List Event) : Bool :=
  noSettleAfterFailureCbGo false tr

/-- A prefix free of failure-callback events does not affect the scan. -/
theorem noSettleAfterFailureCbGo_append (A B : List Event)
    (hA : ∀ ev ∈ A, isOnFailure ev = false) :
    noSettleAfterFailureCbGo false (A ++ B) = noSettleAfterFailureCbGo false B := by
  induction A with
  | nil => rfl
  | cons ev rest ih =>
    have hev : isOnFailure ev = false := hA ev (by simp)
    have hrest : ∀ e ∈ rest, isOnFailure e = false := fun e he => hA e (by simp [he])
    cases ev with
    | onFailureCalled e => simp [isOnFailure] at hev
    | settled i s =>
      simp only [List.cons_append, noSettleAfterFailureCbGo, Bool.not_false,
        Bool.true_and]
      exact ih hrest
    | checkTokenCalled =>
      simp only [List.cons_append, noSettleAfterFailureCbGo]
      exact ih hrest
    | requestRefreshCalled a =>
      simp only [List.cons_append, noSettleAfterFailureCbGo]
      exact ih hrest
    | onSuccessCalled t =>
      simp only [List.cons_append, noSettleAfterFailureCbGo]
      exact ih hrest
    | refreshingSet b =>
      simp only [List.cons_append, noSettleAfterFailureCbGo]
      exact ih hrest

/-! ## The claims -/

/-- C1 — Single-flight: for a burst of classified concurrent failures
arriving from the idle state (none excluded, none already retried — that is
what `classifies` requires), exactly one handler invocation starts a
refresh; every failure classified while `isRefreshing` is true only appends
a pending entry (flag untouched, result `queuedJoin`); one refresh cycle
invokes the renewal operation at most once, and exactly once when the
cross-tab check does not short-circuit it. -/
theorem single_flight (cfg : AuthInterceptorConfig) (es : List AxiosError)
    (hcls : ∀ e ∈ es, classifies cfg e = true) (hne : es ≠ []) :
    (runHandler cfg {} es).2.countP isStarted = 1
    ∧ (∀ (st : RefreshState) (e : AxiosError) (r : RequestConfig),
        st.isRefreshing = true → classifies cfg e = true → e.config = some r →
        onResponseError cfg st e
          = ({ st with failedQueue := st.failedQueue ++ [⟨r⟩] },
             HandlerResult.queuedJoin))
    ∧ (∀ (race : RaceResult) (q : List FailedRequest),
        (performRefresh cfg race q).1.countP isRequestRefresh ≤ 1)
    ∧ (∀ (race : RaceResult) (q : List FailedRequest),
        shortCircuitToken cfg = none →
        (performRefresh cfg race q).1.countP isRequestRefresh = 1) := by
  refine ⟨?_, fun st e r h1 h2 h3 => onResponseError_join cfg st e r h2 h1 h3,
    fun race q => performRefresh_countP_requestRefresh_le cfg race q,
    fun race q h => performRefresh_countP_requestRefresh_eq cfg race q h⟩
  cases es with
  | nil => exact absurd rfl hne
  | cons e rest =>
    obtain ⟨r, hcfg, -⟩ := classifies_spec cfg e (hcls e (by simp))
    have hstep := onResponseError_start cfg {} e r (hcls e (by simp)) rfl hcfg
    simp only [runHandler, hstep]
    rw [List.countP_cons]
    have hzero :
        (runHandler cfg
          { isRefreshing := true, failedQueue := [⟨{ r with retry := true }⟩] }
          rest).2.countP isStarted = 0 := by
      simpa using
        runHandler_refreshing cfg rest
          { isRefreshing := true, failedQueue := [⟨{ r with retry := true }⟩] }
          rfl (fun e' he' => hcls e' (by simp [he']))
    simp [hzero, isStarted]

/-- Concrete instance of `single_flight`: three simultaneous 401 failures
under the default configuration start exactly one refresh. -/
theorem single_flight_witness :
    (∀ e ∈ [({ responseStatus := some 401, config := some { url := "/1" } } : AxiosError),
            { responseStatus := some 401, config := some { url := "/2" } },
            { responseStatus := some 401, config := some { url := "/3" } }],
        classifies {} e = true)
    ∧ ([({ responseStatus := some 401, config := some { url := "/1" } } : AxiosError),
        { responseStatus := some 401, config := some { url := "/2" } },
        { responseStatus := some 401, config := some { url := "/3" } }] ≠ [])
    ∧ (runHandler {} {}
        [({ responseStatus := some 401, config := some { url := "/1" } } : AxiosError),
         { responseStatus := some 401, config := some { url := "/2" } },
         { responseStatus := some 401, config := some { url := "/3" } }]).2.countP isStarted
        = 1 :=
  ⟨by decide, by decide,
   (single_flight {} _ (by decide) (by decide)).1⟩

/-- C2 — Drain exactly once: `processQueue` settles every pending entry in
arrival order exactly once (the `i`-th settlement is the settlement of the
`i`-th entry), each settlement is a rejection or a replay-resolution but
never both, the queue is empty afterwards, and draining the emptied queue
settles nothing. -/
theorem drain_exactly_once (cfg : AuthInterceptorConfig) (error : Option Err)
    (token : Option String) (q : List FailedRequest) :
    (processQueue cfg error token q).1.length = q.length
    ∧ (∀ i : Nat,
        (processQueue cfg error token q).1[i]? = (q[i]?).map (settleOne cfg error token))
    ∧ (∀ s ∈ (processQueue cfg error token q).1,
        ((∃ e, s = Settlement.rejectedWith e) ∨ (∃ c, s = Settlement.resolvedReplay c))
        ∧ ¬((∃ e, s = Settlement.rejectedWith e) ∧ (∃ c, s = Settlement.resolvedReplay c)))
    ∧ (processQueue cfg error token q).2 = []
    ∧ (∀ (error' : Option Err) (token' : Option String),
        (processQueue cfg error' token' (processQueue cfg error token q).2).1 = []) := by
  refine ⟨?_, ?_, ?_, rfl, ?_⟩
  · simp [processQueue, processQueueGo_eq_map]
  · intro i
    simp [processQueue, processQueueGo_eq_map]
  · intro s hs
    constructor
    · cases s with
      | rejectedWith e => exact Or.inl ⟨e, rfl⟩
      | resolvedReplay c => exact Or.inr ⟨c, rfl⟩
    · rintro ⟨⟨e, he⟩, ⟨c, hc⟩⟩
      rw [he] at hc
      exact absurd hc (by simp)
  · intro error' token'
    rfl

/-- Concrete instance of `drain_exactly_once`: a two-entry queue drained on
the failure path yields exactly two settlements and an empty queue. -/
theorem drain_exactly_once_witness :
    (processQueue {} (some (Err.external 7)) none
      [⟨{ url := "/a" }⟩, ⟨{ url := "/b" }⟩]).1.length = 2
    ∧ (processQueue {} (some (Err.external 7)) none
        [⟨{ url := "/a" }⟩, ⟨{ url := "/b" }⟩]).2 = [] :=
  ⟨(drain_exactly_once {} (some (Err.external 7)) none
      [⟨{ url := "/a" }⟩, ⟨{ url := "/b" }⟩]).1,
   (drain_exactly_once {} (some (Err.external 7)) none
      [⟨{ url := "/a" }⟩, ⟨{ url := "/b" }⟩]).2.2.2.1⟩

/-- C3 — Failure classifier: a failure with no descriptor, or whose
descriptor carries the exclusion flag, or with no response, or whose status
is outside the trigger set, or whose descriptor already carries the retry
marker, is propagated unchanged — the handler leaves the state untouched
and never reaches the refresh flow. -/
theorem classifier_propagates (cfg : AuthInterceptorConfig) (st : RefreshState)
    (error : AxiosError)
    (h : error.config = none
      ∨ ∃ r, error.config = some r ∧
          (r.skipAuthRefresh = true ∨ error.responseStatus = none
            ∨ (∀ s, error.responseStatus = some s →
                (statusCodes cfg).contains s = false)
            ∨ r.retry = true)) :
    onResponseError cfg st error = (st, HandlerResult.propagate error) := by
  have hcls : classifies cfg error = false := by
    unfold classifies
    rcases h with h | ⟨r, hr, hcase⟩
    · rw [h]
    · rw [hr]
      rcases hcase with hskip | hresp | hstat | hretry
      · simp [hskip]
      · simp [hresp]
      · cases hs : error.responseStatus with
        | none => simp
        | some s =>
          have hns : ¬ s ∈ statusCodes cfg := by simpa using hstat s hs
          simp [hns]
      · simp [hretry]
  unfold onResponseError
  rw [hcls]
  simp

/-- Concrete instance of `classifier_propagates`: a 401 failure on a
request marked `skipAuthRefresh` is propagated unchanged. -/
theorem classifier_propagates_witness :
    onResponseError {} {}
      { responseStatus := some 401,
        config := some { url := "/public", skipAuthRefresh := true } }
      = ({}, HandlerResult.propagate
          { responseStatus := some 401,
            config := some { url := "/public", skipAuthRefresh := true } }) :=
  classifier_propagates {} {} _ (Or.inr ⟨_, rfl, Or.inl rfl⟩)

/-- C4 counterexample — the claim "onFailure is invoked with the failure
value before any queued PendingEntry is rejected with that value" is false:
with one queued entry and a renewal that rejects with `Refresh failed`, the
trace both rejects an entry and invokes the failure callback, yet the
rejection comes first, so `failureCbBeforeRejections` is violated. -/
theorem failure_callback_order_cex :
    ((performRefresh {} (RaceResult.rejected (Err.errorMsg "Refresh failed"))
        [⟨{ url := "/data", retry := true }⟩]).1.any isOnFailure = true)
    ∧ ((performRefresh {} (RaceResult.rejected (Err.errorMsg "Refresh failed"))
        [⟨{ url := "/data", retry := true }⟩]).1.any isSettleEvent = true)
    ∧ failureCbBeforeRejections
        (performRefresh {} (RaceResult.rejected (Err.errorMsg "Refresh failed"))
          [⟨{ url := "/data", retry := true }⟩]).1 = false :=
  ⟨rfl, rfl, rfl⟩

/-- C4 (amended) — Failure-callback ordering, as the code implements it:
for every refresh cycle that ends in failure (renewal rejection or
timeout), every queued PendingEntry is first rejected with the failure
value, and only then is `onFailure` invoked with that value (the `catch`
block runs `processQueue(err, null)` before `config.onFailure(err)`). -/
theorem failure_callback_after_rejections (cfg : AuthInterceptorConfig)
    (race : RaceResult) (q : List FailedRequest) (e : Err)
    (hsc : shortCircuitToken cfg = none)
    (hrace : race = RaceResult.rejected e
      ∨ race = RaceResult.timedOut ∧ e = Err.errorMsg (timeoutErrMsg (TIMEOUT_MS cfg))) :
    (performRefresh cfg race q).1
      = checkEvents cfg ++ [Event.requestRefreshCalled (refreshArg cfg)]
        ++ settleEvents (q.map (settleOne cfg (some e) none))
        ++ [Event.onFailureCalled e, Event.refreshingSet false]
    ∧ (∀ prom, settleOne cfg (some e) none prom = Settlement.rejectedWith e)
    ∧ rejectionsBeforeFailureCb (performRefresh cfg race q).1 = true := by
  have htrace :
      (performRefresh cfg race q).1
        = checkEvents cfg ++ [Event.requestRefreshCalled (refreshArg cfg)]
          ++ settleEvents (q.map (settleOne cfg (some e) none))
          ++ [Event.onFailureCalled e, Event.refreshingSet false] := by
    rcases hrace with hrej | ⟨hto, he⟩
    · subst hrej
      unfold performRefresh
      rw [hsc]
      simp [processQueue, processQueueGo_eq_map]
    · subst hto
      subst he
      unfold performRefresh
      rw [hsc]
      simp [processQueue, processQueueGo_eq_map]
  refine ⟨htrace, fun prom => rfl, ?_⟩
  rw [htrace]
  unfold rejectionsBeforeFailureCb
  rw [List.append_assoc, List.append_assoc]
  rw [noSettleAfterFailureCbGo_append _ _ (checkEvents_no_onFailure cfg)]
  rw [show ([Event.requestRefreshCalled (refreshArg cfg)] ++
      (settleEvents (q.map (settleOne cfg (some e) none)) ++
        [Event.onFailureCalled e, Event.refreshingSet false]))
      = Event.requestRefreshCalled (refreshArg cfg) ::
        (settleEvents (q.map (settleOne cfg (some e) none)) ++
          [Event.onFailureCalled e, Event.refreshingSet false]) from rfl]
  rw [show noSettleAfterFailureCbGo false
        (Event.requestRefreshCalled (refreshArg cfg) ::
          (settleEvents (q.map (settleOne cfg (some e) none)) ++
            [Event.onFailureCalled e, Event.refreshingSet false]))
      = noSettleAfterFailureCbGo false
          (settleEvents (q.map (settleOne cfg (some e) none)) ++
            [Event.onFailureCalled e, Event.refreshingSet false]) from rfl]
  rw [noSettleAfterFailureCbGo_append _ _
    (settleEvents_no_onFailure (q.map (settleOne cfg (some e) none)))]
  rfl

/-- Concrete instance of `failure_callback_after_rejections`: a rejected
renewal with one queued entry rejects the entry before firing the failure
callback. -/
theorem failure_callback_after_rejections_witness :
    shortCircuitToken {} = none
    ∧ rejectionsBeforeFailureCb
        (performRefresh {} (RaceResult.rejected (Err.external 3))
          [⟨{ url := "/d", retry := true }⟩]).1 = true :=
  ⟨rfl,
   (failure_callback_after_rejections {} (RaceResult.rejected (Err.external 3))
      [⟨{ url := "/d", retry := true }⟩] (Err.external 3) rfl (Or.inl rfl)).2.2⟩

/-- C5 counterexample — the claim's conjunct "the success callback is
invoked with the credential" is false: when `checkTokenIsValid` settles
with the non-empty string `tok`, the queue is drained with that credential
(the entry resolves carrying `Authorization: Bearer tok`) and the renewal
is never invoked, but no `onSuccess` invocation occurs anywhere in the
trace. -/
theorem cross_tab_short_circuit_cex :
    shortCircuitToken { checkTokenIsValid := some (CheckResult.str "tok") } = some "tok"
    ∧ (performRefresh { checkTokenIsValid := some (CheckResult.str "tok") }
        RaceResult.timedOut [⟨{ url := "/data" }⟩]).1
      = [Event.checkTokenCalled,
         Event.settled 0 (Settlement.resolvedReplay
           { url := "/data", headers := [("Authorization", "Bearer tok")] }),
         Event.refreshingSet false]
    ∧ ((performRefresh { checkTokenIsValid := some (CheckResult.str "tok") }
        RaceResult.timedOut [⟨{ url := "/data" }⟩]).1.any isOnSuccess = false) :=
  ⟨rfl, rfl, rfl⟩

/-- C5 (amended) — Cross-context short-circuit: when `checkTokenIsValid`
settles with a non-empty string, the renewal operation is never invoked and
the queue is drained directly with that string as the credential (each
entry resolves with the token attached by the configured or default
attacher); the success callback is not invoked on this path. -/
theorem cross_tab_short_circuit (cfg : AuthInterceptorConfig) (race : RaceResult)
    (q : List FailedRequest) (s : String)
    (h : shortCircuitToken cfg = some s) :
    (performRefresh cfg race q).1
      = Event.checkTokenCalled ::
          (settleEvents (q.map (settleOne cfg none (some s)))
            ++ [Event.refreshingSet false])
    ∧ (∀ ev ∈ (performRefresh cfg race q).1,
        isRequestRefresh ev = false ∧ isOnSuccess ev = false)
    ∧ (∀ prom, settleOne cfg none (some s) prom
        = Settlement.resolvedReplay
            ((cfg.attachTokenToRequest.getD defaultAttachToken) prom.config s)) := by
  have hne : s ≠ "" := shortCircuitToken_ne_empty cfg s h
  have htrace :
      (performRefresh cfg race q).1
        = Event.checkTokenCalled ::
            (settleEvents (q.map (settleOne cfg none (some s)))
              ++ [Event.refreshingSet false]) := by
    unfold performRefresh
    rw [h, checkEvents_of_shortCircuit cfg s h]
    simp [processQueue, processQueueGo_eq_map]
  refine ⟨htrace, ?_, ?_⟩
  · intro ev hev
    rw [htrace] at hev
    simp only [List.mem_cons, List.mem_append, List.not_mem_nil, or_false] at hev
    rcases hev with rfl | hev | rfl
    · exact ⟨rfl, rfl⟩
    · obtain ⟨j, s', rfl⟩ :=
        settleEventsFrom_shape 0 (q.map (settleOne cfg none (some s))) ev hev
      exact ⟨rfl, rfl⟩
    · exact ⟨rfl, rfl⟩
  · intro prom
    unfold settleOne
    simp [hne]

/-- Concrete instance of `cross_tab_short_circuit`. -/
theorem cross_tab_short_circuit_witness :
    shortCircuitToken { checkTokenIsValid := some (CheckResult.str "tok2") } = some "tok2"
    ∧ (performRefresh { checkTokenIsValid := some (CheckResult.str "tok2") }
        RaceResult.timedOut [⟨{ url := "/x" }⟩]).1
      = Event.checkTokenCalled ::
          (settleEvents ([⟨({ url := "/x" } : RequestConfig)⟩].map
            (settleOne { checkTokenIsValid := some (CheckResult.str "tok2") } none (some "tok2")))
            ++ [Event.refreshingSet false]) :=
  ⟨rfl,
   (cross_tab_short_circuit { checkTokenIsValid := some (CheckResult.str "tok2") }
      RaceResult.timedOut [⟨{ url := "/x" }⟩] "tok2" rfl).1⟩

/-- C6 counterexample — the claim "a local failure is surfaced without ever
invoking the renewal operation" is false: with `getRefreshToken` configured
and returning `null` (no secondary artifact), the cycle still invokes
`requestRefresh` — with `undefined` as its argument — and no local failure
precedes that invocation. -/
theorem missing_credential_cex :
    refreshArg { getRefreshToken := some RTResult.nullv } = none
    ∧ ((performRefresh { getRefreshToken := some RTResult.nullv }
          (RaceResult.rejected (Err.external 0))
          [⟨{ url := "/data", retry := true }⟩]).1.any
        (fun ev => decide (ev = Event.requestRefreshCalled none)) = true) :=
  ⟨rfl, rfl⟩

/-- C6 (amended) — Missing-credential flow: when no secondary renewal
artifact is available (`refreshArg` is `none`), no local failure is
surfaced; the renewal operation is invoked exactly once with no artifact
(`undefined`), and if it rejects, that rejection is used to reject every
queued PendingEntry and is routed through the failure callback. -/
theorem missing_credential_flow (cfg : AuthInterceptorConfig)
    (q : List FailedRequest) (e : Err)
    (hsc : shortCircuitToken cfg = none)
    (harg : refreshArg cfg = none) :
    (performRefresh cfg (RaceResult.rejected e) q).1
      = checkEvents cfg ++ [Event.requestRefreshCalled none]
        ++ settleEvents (q.map (settleOne cfg (some e) none))
        ++ [Event.onFailureCalled e, Event.refreshingSet false]
    ∧ (∀ prom, settleOne cfg (some e) none prom = Settlement.rejectedWith e)
    ∧ (performRefresh cfg (RaceResult.rejected e) q).1.countP isRequestRefresh = 1 := by
  refine ⟨?_, fun prom => rfl,
    performRefresh_countP_requestRefresh_eq cfg (RaceResult.rejected e) q hsc⟩
  unfold performRefresh
  rw [hsc, harg]
  simp [processQueue, processQueueGo_eq_map]

/-- Concrete instance of `missing_credential_flow`. -/
theorem missing_credential_flow_witness :
    shortCircuitToken { getRefreshToken := some RTResult.nullv } = none
    ∧ refreshArg { getRefreshToken := some RTResult.nullv } = none
    ∧ (performRefresh { getRefreshToken := some RTResult.nullv }
        (RaceResult.rejected (Err.external 5)) [⟨{ url := "/d", retry := true }⟩]).1.countP
        isRequestRefresh = 1 :=
  ⟨rfl, rfl,
   (missing_credential_flow { getRefreshToken := some RTResult.nullv }
      [⟨{ url := "/d", retry := true }⟩] (Err.external 5) rfl rfl).2.2⟩

/-- C7 — Timeout: when the renewal operation does not settle within the
effective timeout (the configured `refreshTimeout`, or the default 30000
when unconfigured), every queued PendingEntry is rejected with an error
whose message includes the timeout value, and the failure callback is
invoked with that same error. -/
theorem timeout_rejects_queue (cfg : AuthInterceptorConfig)
    (q : List FailedRequest) (t : Nat)
    (hsc : shortCircuitToken cfg = none)
    (ht : cfg.refreshTimeout = some t ∧ t ≠ 0 ∨ cfg.refreshTimeout = none ∧ t = 30000) :
    TIMEOUT_MS cfg = t
    ∧ (performRefresh cfg RaceResult.timedOut q).1
      = checkEvents cfg ++ [Event.requestRefreshCalled (refreshArg cfg)]
        ++ settleEvents (q.map (settleOne cfg (some (Err.errorMsg (timeoutErrMsg t))) none))
        ++ [Event.onFailureCalled (Err.errorMsg (timeoutErrMsg t)),
            Event.refreshingSet false]
    ∧ (∀ prom, settleOne cfg (some (Err.errorMsg (timeoutErrMsg t))) none prom
        = Settlement.rejectedWith (Err.errorMsg (timeoutErrMsg t)))
    ∧ (∃ pre post, timeoutErrMsg t = pre ++ toString t ++ post) := by
  have hms : TIMEOUT_MS cfg = t := by
    unfold TIMEOUT_MS
    rcases ht with ⟨hc, hz⟩ | ⟨hc, hz⟩
    · rw [hc]; simp [hz]
    · rw [hc, hz]
  refine ⟨hms, ?_, fun prom => rfl,
    ⟨"Refresh token timed out after ", "ms", rfl⟩⟩
  unfold performRefresh
  rw [hsc, hms]
  simp [processQueue, processQueueGo_eq_map]

/-- Concrete instance of `timeout_rejects_queue`: with `refreshTimeout`
configured as 100, the synthesized timeout error's message contains `100`. -/
theorem timeout_rejects_queue_witness :
    shortCircuitToken { refreshTimeout := some 100 } = none
    ∧ TIMEOUT_MS { refreshTimeout := some 100 } = 100
    ∧ (∃ pre post, timeoutErrMsg 100 = pre ++ toString 100 ++ post) :=
  ⟨rfl,
   (timeout_rejects_queue { refreshTimeout := some 100 } [⟨{ url := "/slow" }⟩] 100
      rfl (Or.inl ⟨rfl, by decide⟩)).1,
   (timeout_rejects_queue { refreshTimeout := some 100 } [⟨{ url := "/slow" }⟩] 100
      rfl (Or.inl ⟨rfl, by decide⟩)).2.2.2⟩

/-- C8 — Trigger symmetry and failure propagation: a classified failure
arriving in the idle state starts the refresh with its own entry already
appended to the queue — the same queue `performRefresh` later drains — and
on a failed refresh every entry of that queue (trigger and joiners alike)
is settled by the same `settleOne`, each rejected with the refresh failure
value; when that value differs from the original authorization failure, no
entry is rejected with the original failure. -/
theorem trigger_symmetry (cfg : AuthInterceptorConfig) (st : RefreshState)
    (error : AxiosError) (r : RequestConfig) (e : Err)
    (hcls : classifies cfg error = true) (hidle : st.isRefreshing = false)
    (hcfg : error.config = some r) (hsc : shortCircuitToken cfg = none) :
    (onResponseError cfg st error).2 = HandlerResult.startedRefresh
    ∧ (onResponseError cfg st error).1.failedQueue
        = st.failedQueue ++ [⟨{ r with retry := true }⟩]
    ∧ (onResponseError cfg st error).1.isRefreshing = true
    ∧ (performRefresh cfg (RaceResult.rejected e)
          (onResponseError cfg st error).1.failedQueue).1
        = checkEvents cfg ++ [Event.requestRefreshCalled (refreshArg cfg)]
          ++ settleEvents (((onResponseError cfg st error).1.failedQueue).map
              (settleOne cfg (some e) none))
          ++ [Event.onFailureCalled e, Event.refreshingSet false]
    ∧ (∀ prom, settleOne cfg (some e) none prom = Settlement.rejectedWith e)
    ∧ (e ≠ Err.axios error →
        ∀ s ∈ (processQueue cfg (some e) none
            (onResponseError cfg st error).1.failedQueue).1,
          s ≠ Settlement.rejectedWith (Err.axios error)) := by
  have hstart := onResponseError_start cfg st error r hcls hidle hcfg
  refine ⟨by rw [hstart], by rw [hstart], by rw [hstart], ?_, fun prom => rfl, ?_⟩
  · unfold performRefresh
    rw [hsc]
    simp [processQueue, processQueueGo_eq_map]
  · intro hne s hs habs
    rw [processQueue, processQueueGo_eq_map] at hs
    obtain ⟨prom, -, hval⟩ := List.mem_map.mp hs
    rw [habs] at hval
    have : e = Err.axios error := by
      have := hval
      simp only [settleOne] at this
      exact (Settlement.rejectedWith.injEq _ _).mp this
    exact hne this

/-- Concrete instance of `trigger_symmetry`. -/
theorem trigger_symmetry_witness :
    classifies {} { responseStatus := some 401, config := some { url := "/t" } } = true
    ∧ (onResponseError {} {}
        { responseStatus := some 401, config := some { url := "/t" } }).2
      = HandlerResult.startedRefresh
    ∧ (onResponseError {} {}
        { responseStatus := some 401, config := some { url := "/t" } }).1.failedQueue
      = [] ++ [⟨{ url := "/t", retry := true }⟩] :=
  ⟨by decide,
   (trigger_symmetry {} {} { responseStatus := some 401, config := some { url := "/t" } }
      { url := "/t" } (Err.external 9) (by decide) rfl rfl rfl).1,
   (trigger_symmetry {} {} { responseStatus := some 401, config := some { url := "/t" } }
      { url := "/t" } (Err.external 9) (by decide) rfl rfl rfl).2.1⟩

/-- C9 — Custom attacher exclusivity: on a successful drain with a custom
`attachTokenToRequest` configured, every replayed request's descriptor is
exactly the custom function's output — the default bearer-style
`Authorization` header is not also applied. -/
theorem custom_attacher_exclusive (cfg : AuthInterceptorConfig)
    (f : RequestConfig → String → RequestConfig) (q : List FailedRequest)
    (tok : String)
    (hf : cfg.attachTokenToRequest = some f) (htok : tok ≠ "") :
    (processQueue cfg none (some tok) q).1
      = q.map (fun prom => Settlement.resolvedReplay (f prom.config tok))
    ∧ (∀ prom c, settleOne cfg none (some tok) prom = Settlement.resolvedReplay c →
        c = f prom.config tok) := by
  have hone : ∀ prom, settleOne cfg none (some tok) prom
      = Settlement.resolvedReplay (f prom.config tok) := by
    intro prom
    unfold settleOne
    rw [hf]
    simp [htok]
  constructor
  · rw [processQueue, processQueueGo_eq_map]
    exact List.map_congr_left (fun prom _ => hone prom)
  · intro prom c hc
    rw [hone prom] at hc
    exact ((Settlement.resolvedReplay.injEq _ _).mp hc).symm

/-- Concrete instance of `custom_attacher_exclusive`: an attacher writing
`x-api-key` yields a replayed request carrying only that header, with no
`Authorization` header. -/
theorem custom_attacher_exclusive_witness :
    (processQueue
      { attachTokenToRequest := some (fun req t =>
          { req with headers := headersSet req.headers "x-api-key" t }) }
      none (some "custom-token") [⟨{ url := "/custom" }⟩]).1
      = ([⟨{ url := "/custom" }⟩] : List FailedRequest).map (fun prom =>
          Settlement.resolvedReplay
            { prom.config with
                headers := headersSet prom.config.headers "x-api-key" "custom-token" }) :=
  (custom_attacher_exclusive
    { attachTokenToRequest := some (fun req t =>
        { req with headers := headersSet req.headers "x-api-key" t }) }
    (fun req t => { req with headers := headersSet req.headers "x-api-key" t })
    [⟨{ url := "/custom" }⟩] "custom-token" rfl (by decide)).1

/-- C10 — Falsy timeout fallback: configuring `refreshTimeout` as `0`
(falsy in JS) makes the effective timeout the default 30000, and no
configuration at all can make the effective timeout zero. -/
theorem falsy_timeout_fallback (cfg : AuthInterceptorConfig)
    (h : cfg.refreshTimeout = some 0) :
    TIMEOUT_MS cfg = 30000
    ∧ (∀ cfg' : AuthInterceptorConfig, TIMEOUT_MS cfg' ≠ 0) := by
  constructor
  · unfold TIMEOUT_MS
    rw [h]
    simp
  · intro cfg'
    unfold TIMEOUT_MS
    cases hc : cfg'.refreshTimeout with
    | none => simp
    | some t =>
      by_cases hz : t = 0 <;> simp [hz]

/-- Concrete instance of `falsy_timeout_fallback`. -/
theorem falsy_timeout_fallback_witness :
    TIMEOUT_MS { refreshTimeout := some 0 } = 30000 :=
  (falsy_timeout_fallback { refreshTimeout := some 0 } rfl).1

end AxiosAuthRefresh
